import Mathlib

/-!
Verification of the quiz-app backend core logic (app/main.py, app/models.py).

The embedding models the pure core of the service:
* Python dictionaries keyed by strings are association lists with
  Python insert semantics (`dinsert`: overwrite in place, else append).
* The DynamoDB session table is a function `String -> Option SessionData`.
* The question table is a function `String -> Option (Option ProblemData)`:
  outer `none` means the key is absent, `some none` means the stored item
  fails deserialization or schema validation, `some (some p)` means the item
  parses to `p`.
* Randomness (`random.sample`, `random.shuffle`) is a function parameter,
  constrained by hypotheses where a theorem needs its contract.
* `time.time()` is a `Nat` parameter.
Field and function names follow the source; the `Explanation` model and the
`explanation` fields of the source are rendered `Explan` / `explan`.
-/

/-- Python dict assignment `d[k] = v`: overwrite the value in place when the
key is present, otherwise append the new pair at the end. -/
def dinsert {α : Type} (k : String) (v : α) : List (String × α) → List (String × α)
  | [] => [(k, v)]
  | (k₁, v₁) :: rest => if k₁ = k then (k, v) :: rest else (k₁, v₁) :: dinsert k v rest

/-- Python dict lookup `d[k]` / `k in d`. -/
def dlookup {α : Type} (k : String) : List (String × α) → Option α
  | [] => none
  | (k₁, v₁) :: rest => if k₁ = k then some v₁ else dlookup k rest

/-- The keys of a Python dict, in insertion order. -/
def dkeys {α : Type} (m : List (String × α)) : List String :=
  m.map Prod.fst

/-- models.Option: one selectable choice of a question. -/
structure QOption where
  id : String
  text : String
deriving Repr, DecidableEq

/-- models.Explanation (source name `Explanation`). -/
structure Explan where
  explan : String
  referencePages : Option String
  additionalResources : Option (List (List (String × String)))
deriving Repr, DecidableEq

/-- models.ProblemData: one question record as stored in the question table. -/
structure ProblemData where
  questionId : String
  bookSource : String
  category : Option String
  question : String
  options : List QOption
  correctAnswer : String
  explan : Explan
deriving Repr, DecidableEq

/-- models.SessionDataItem: per-question entry of the stored answer key. -/
structure SessionDataItem where
  questionId : String
  correctAnswer : String
  category : Option String
  question : String
  options : List QOption
  explan : Option String
deriving Repr, DecidableEq

/-- models.SessionData: the per-session record stored in the session table. -/
structure SessionData where
  problem_data : List (String × SessionDataItem)
  ttl : Nat
deriving Repr, DecidableEq

/-- models.Answer: one submitted answer. The wire value of `answer` is
nullable JSON, embedded as `Option String`; the pydantic model declares
`answer: str`, which the request validation predicate `answerValid` enforces. -/
structure Answer where
  questionId : String
  answer : Option String
deriving Repr, DecidableEq

/-- models.AnswerRequest: body of POST /answers. -/
structure AnswerRequest where
  sessionId : String
  answers : List Answer
deriving Repr, DecidableEq

/-- models.Result: one graded result. The source declares `userAnswer: str`
(required, non-null); `Option String` is the wire-level slot the grader echoes
the submitted answer into. Every input that passed the Answer model carries
`some`, so the two types agree on the reachable domain; were the loop handed a
null answer, the source would raise a pydantic ValidationError while building
the Result rather than produce one with a null userAnswer. -/
structure Result where
  questionId : String
  category : Option String
  isCorrect : Bool
  userAnswer : Option String
  correctAnswer : String
  question : String
  options : List QOption
  explan : Option String
deriving Repr, DecidableEq

/-- main.ServiceError: status code and detail of a raised service error. -/
structure ServiceErr where
  status_code : Nat
  detail : String
deriving Repr, DecidableEq

/-- main.SESSION_TTL_SECONDS = 2 * 60 * 60. -/
def SESSION_TTL_SECONDS : Nat := 2 * 60 * 60

/-- The projection of one ProblemData into its SessionDataItem, as built in
the loop of store_session_data. The source guards
`if problem.explanation and hasattr(...)`; a validated ProblemData always has
a truthy Explanation model carrying the attribute, so the text is always taken. -/
def sessionItemOfProblem (p : ProblemData) : SessionDataItem :=
  { questionId := p.questionId
    correctAnswer := p.correctAnswer
    category := p.category
    question := p.question
    options := p.options.map (fun o => { id := o.id, text := o.text })
    explan := some p.explan.explan }

/-- The problem_data_map built by store_session_data: one dict assignment per
problem, in list order. -/
def buildProblemDataMap (problems : List ProblemData) : List (String × SessionDataItem) :=
  problems.foldl (fun m p => dinsert p.questionId (sessionItemOfProblem p) m) []

/-- main.store_session_data, pure part: the SessionData value written for the
given problems at the given current time. -/
def store_session_data (current_time : Nat) (problems : List ProblemData) : SessionData :=
  { problem_data := buildProblemDataMap problems
    ttl := current_time + SESSION_TTL_SECONDS }

/-- The effect of put_item on the session table. -/
def putSession (store : String → Option SessionData) (session_id : String)
    (sd : SessionData) : String → Option SessionData :=
  fun k => if k = session_id then some sd else store k

/-- main.get_session_data: fetch by key; absent item gives none; an item whose
ttl is strictly below the current time gives none; otherwise the item. -/
def get_session_data (store : String → Option SessionData) (current_time : Nat)
    (session_id : String) : Option SessionData :=
  match store session_id with
  | none => none
  | some item => if item.ttl < current_time then none else some item

/-- The bookSource query parameter of GET /questions. -/
inductive BookSource
  | readable_code
  | programming_principles
  | both
deriving Repr, DecidableEq

/-- target_book_sources as built at the top of get_questions_from_dynamodb. -/
def targetBookSources : BookSource → List String
  | .both => ["readable_code", "programming_principles"]
  | .readable_code => ["readable_code"]
  | .programming_principles => ["programming_principles"]

/-- One GSI query call returns a single page. The backing index for a
bookSource is a list of pages of question IDs; the call yields the first page
(later pages stand behind the LastEvaluatedKey the source only warns about). -/
def headPage (pages : List (List String)) : List String :=
  pages.headD []

/-- all_question_ids_from_gsi: the source appends, per target bookSource in
order, the items of the single query result for that source. -/
def allQuestionIds (pages : String → List (List String)) (bs : BookSource) : List String :=
  (targetBookSources bs).foldl (fun acc src => acc ++ headPage (pages src)) []

/-- The problems list built from the BatchGetItem responses: DynamoDB returns
at most one item per distinct requested key (`dedup`; the store does not fix
a response order), each present item is deserialized and validated, and a
failing item is skipped (`continue` in the source loop). -/
def parsedProblems (table : String → Option (Option ProblemData))
    (selected_ids : List String) : List ProblemData :=
  (selected_ids.dedup.filterMap table).filterMap id

/-- The 404 raised when the GSI queries return no IDs for the source. -/
def noQuestionsError : ServiceErr :=
  { status_code := 404, detail := "No questions found for source" }

/-- The 500 raised when IDs were selected but nothing parsed. -/
def internalFetchError : ServiceErr :=
  { status_code := 500, detail := "Failed to load or validate any question data after fetching." }

/-- main.get_questions_from_dynamodb, pure part. `sample` models
random.sample over the accumulated ID pool; `table` models BatchGetItem plus
per-item deserialization and validation. -/
def get_questions_from_dynamodb (pages : String → List (List String))
    (table : String → Option (Option ProblemData))
    (sample : List String → Nat → List String)
    (book_source : BookSource) (count : Nat) : Except ServiceErr (List ProblemData) :=
  let all_ids := allQuestionIds pages book_source
  if all_ids = [] then
    .error noQuestionsError
  else
    let num_to_fetch := min count all_ids.length
    if num_to_fetch = 0 then
      .ok []
    else
      let selected_ids := sample all_ids num_to_fetch
      if selected_ids = [] then
        .ok []
      else
        let problems := parsedProblems table selected_ids
        if problems = [] then .error internalFetchError else .ok problems

/-- main.shuffle_options: for each question whose options list is truthy
(non-empty), permute its options in place; `shuf` models random.shuffle. -/
def shuffle_options (shuf : List QOption → List QOption)
    (questions : List ProblemData) : List ProblemData :=
  questions.map (fun q => if q.options = [] then q else { q with options := shuf q.options })

/-- is_correct as computed in the validate_answers loop: False when the user
answer is None, otherwise equality with the stored correctAnswer. -/
def isCorrectOf (ans : Option String) (correct : String) : Bool :=
  match ans with
  | none => false
  | some a => a == correct

/-- One iteration of the validate_answers loop: none when the questionId is
not in the session problem_data (the answer is skipped), otherwise the Result
built from the stored entry. -/
def gradeAnswer (m : List (String × SessionDataItem)) (a : Answer) : Option Result :=
  match dlookup a.questionId m with
  | none => none
  | some correct_info =>
      some { questionId := a.questionId
             category := correct_info.category
             isCorrect := isCorrectOf a.answer correct_info.correctAnswer
             userAnswer := a.answer
             correctAnswer := correct_info.correctAnswer
             question := correct_info.question
             options := correct_info.options
             explan := correct_info.explan }

/-- main.validate_answers: fold over the user answers in order, skipping
unknown questionIds and appending one Result for each known one. -/
def validate_answers : List Answer → SessionData → List Result
  | [], _ => []
  | a :: rest, session_data =>
    match dlookup a.questionId session_data.problem_data with
    | none => validate_answers rest session_data
    | some correct_info =>
        { questionId := a.questionId
          category := correct_info.category
          isCorrect := isCorrectOf a.answer correct_info.correctAnswer
          userAnswer := a.answer
          correctAnswer := correct_info.correctAnswer
          question := correct_info.question
          options := correct_info.options
          explan := correct_info.explan } :: validate_answers rest session_data

/-- The pydantic constraint of models.Answer: `answer: str` is a required
non-null string. -/
def answerValid (a : Answer) : Bool :=
  a.answer.isSome

/-- Request-body validation of POST /answers: every submitted answer must
satisfy the Answer model. -/
def answerRequestValid (req : AnswerRequest) : Bool :=
  req.answers.all answerValid

/-- Outcome of POST /answers, restricted to the paths the claims concern. -/
inductive SubmitOutcome
  | validationError
  | notFound
  | ok (results : List Result)
deriving Repr, DecidableEq

/-- main.submit_answers, pure part: request-model validation (FastAPI returns
422 before the endpoint body runs), then session load, then grading. -/
def submit_answers (store : String → Option SessionData) (current_time : Nat)
    (req : AnswerRequest) : SubmitOutcome :=
  if answerRequestValid req then
    match get_session_data store current_time req.sessionId with
    | none => .notFound
    | some session_data => .ok (validate_answers req.answers session_data)
  else
    .validationError

theorem dlookup_dinsert {α : Type} (k k₂ : String) (v : α) (m : List (String × α)) :
    dlookup k (dinsert k₂ v m) = if k₂ = k then some v else dlookup k m := by
  induction m with
  | nil =>
    simp [dinsert, dlookup]
  | cons hd tl ih =>
    obtain ⟨k₁, v₁⟩ := hd
    by_cases h₁ : k₁ = k₂
    · subst h₁
      by_cases h₂ : k₁ = k <;> simp [dinsert, dlookup, h₂]
    · by_cases h₂ : k₁ = k
      · subst h₂
        have : ¬ k₂ = k₁ := fun h => h₁ h.symm
        simp [dinsert, dlookup, h₁, this]
      · simp [dinsert, dlookup, h₁, h₂, ih]

theorem dkeys_cons {α : Type} (hd : String × α) (tl : List (String × α)) :
    dkeys (hd :: tl) = hd.1 :: dkeys tl := rfl

theorem dkeys_dinsert {α : Type} (k : String) (v : α) (m : List (String × α)) :
    dkeys (dinsert k v m) = if k ∈ dkeys m then dkeys m else dkeys m ++ [k] := by
  induction m with
  | nil => simp [dinsert, dkeys]
  | cons hd tl ih =>
    obtain ⟨k₁, v₁⟩ := hd
    by_cases h₁ : k₁ = k
    · subst h₁
      simp [dinsert, dkeys_cons, List.mem_cons]
    · have hne : ¬ k = k₁ := fun h => h₁ h.symm
      simp only [dinsert, h₁, if_false, dkeys_cons, List.mem_cons, hne, false_or, ih]
      by_cases h₂ : k ∈ dkeys tl <;> simp [h₂]

theorem mem_dkeys_dinsert {α : Type} (a k : String) (v : α) (m : List (String × α)) :
    a ∈ dkeys (dinsert k v m) ↔ a = k ∨ a ∈ dkeys m := by
  rw [dkeys_dinsert]
  by_cases h : k ∈ dkeys m
  · simp only [h, if_true]
    constructor
    · exact Or.inr
    · rintro (rfl | ha)
      · exact h
      · exact ha
  · simp only [h, if_false, List.mem_append, List.mem_singleton]
    tauto

theorem nodup_dkeys_dinsert {α : Type} (k : String) (v : α) (m : List (String × α))
    (h : (dkeys m).Nodup) : (dkeys (dinsert k v m)).Nodup := by
  rw [dkeys_dinsert]
  by_cases hm : k ∈ dkeys m
  · simp only [hm, if_true]
    exact h
  · simp only [hm, if_false]
    simp [List.nodup_append, h, hm]

theorem dlookup_none_iff {α : Type} (k : String) (m : List (String × α)) :
    dlookup k m = none ↔ k ∉ dkeys m := by
  induction m with
  | nil => simp [dlookup, dkeys]
  | cons hd tl ih =>
    obtain ⟨k₁, v₁⟩ := hd
    rw [dkeys_cons]
    by_cases h₁ : k₁ = k
    · subst h₁
      simp [dlookup, List.mem_cons]
    · have hne : ¬ k = k₁ := fun h => h₁ h.symm
      simp only [dlookup, h₁, if_false, List.mem_cons, ih]
      tauto

theorem find?_append_last {α : Type} (p : α → Bool) (l : List α) (a : α) :
    (l ++ [a]).find? p = match l.find? p with
      | some x => some x
      | none => if p a then some a else none := by
  induction l with
  | nil =>
    cases h : p a <;> simp [List.find?, h]
  | cons hd tl ih =>
    by_cases h : p hd
    · simp [List.find?, h]
    · simp only [List.cons_append, List.find?]
      rw [Bool.not_eq_true] at h
      simp [h, ih]

theorem dlookup_foldl_dinsert (k : String) (l : List ProblemData)
    (m₀ : List (String × SessionDataItem)) :
    dlookup k (l.foldl (fun m p => dinsert p.questionId (sessionItemOfProblem p) m) m₀)
      = match l.reverse.find? (fun p => p.questionId == k) with
        | some p => some (sessionItemOfProblem p)
        | none => dlookup k m₀ := by
  induction l generalizing m₀ with
  | nil => simp [List.find?]
  | cons hd tl ih =>
    simp only [List.foldl_cons, List.reverse_cons]
    rw [ih, find?_append_last]
    cases h : tl.reverse.find? (fun p => p.questionId == k) with
    | some p => simp
    | none =>
      simp only []
      rw [dlookup_dinsert]
      by_cases h₂ : hd.questionId = k
      · simp [h₂]
      · have : (hd.questionId == k) = false := by
          simp [h₂]
        simp [h₂, this]

theorem mem_parsed (table : String → Option (Option ProblemData)) (keys : List String)
    (q : ProblemData) :
    q ∈ (keys.filterMap table).filterMap id ↔ ∃ k, k ∈ keys ∧ table k = some (some q) := by
  simp only [List.mem_filterMap, id_eq]
  constructor
  · rintro ⟨o, ⟨k, hk, ht⟩, rfl⟩
    exact ⟨k, hk, ht⟩
  · rintro ⟨k, hk, ht⟩
    exact ⟨some q, ⟨k, hk, ht⟩, rfl⟩

theorem nodup_parsed_questionIds (table : String → Option (Option ProblemData))
    (htable : ∀ k p, table k = some (some p) → p.questionId = k)
    (keys : List String) (hnd : keys.Nodup) :
    (((keys.filterMap table).filterMap id).map ProblemData.questionId).Nodup := by
  induction keys with
  | nil => simp
  | cons k tl ih =>
    rw [List.nodup_cons] at hnd
    obtain ⟨hk, htl⟩ := hnd
    cases h : table k with
    | none =>
      rw [List.filterMap_cons_none h]
      exact ih htl
    | some o =>
      rw [List.filterMap_cons_some h]
      cases o with
      | none =>
        rw [List.filterMap_cons_none rfl]
        exact ih htl
      | some p =>
        rw [@List.filterMap_cons_some _ _ id (some p) (List.filterMap table tl) p rfl,
          List.map_cons, List.nodup_cons]
        refine ⟨?_, ih htl⟩
        intro hmem
        rw [List.mem_map] at hmem
        obtain ⟨q, hq, hqid⟩ := hmem
        rw [mem_parsed] at hq
        obtain ⟨k₂, hk₂, ht₂⟩ := hq
        have e₂ : q.questionId = k₂ := htable k₂ q ht₂
        have e₁ : p.questionId = k := htable k p h
        rw [e₂, e₁] at hqid
        exact hk (hqid ▸ hk₂)

/-- C3: for every category selector (including "both") and every requested
count, a successfully returned question list of get_questions_from_dynamodb
has at most count entries and no two entries with the same questionId, even
when the per-category ID listings share an ID. -/
theorem C3_sampling_bound_and_distinct (pages : String → List (List String))
    (table : String → Option (Option ProblemData))
    (sample : List String → Nat → List String)
    (hsample : ∀ ids n, n ≤ ids.length → (sample ids n).length = n)
    (htable : ∀ k p, table k = some (some p) → p.questionId = k)
    (bs : BookSource) (count : Nat) (l : List ProblemData)
    (hok : get_questions_from_dynamodb pages table sample bs count = .ok l) :
    l.length ≤ count ∧ (l.map ProblemData.questionId).Nodup := by
  simp only [get_questions_from_dynamodb] at hok
  split at hok
  · simp at hok
  · split at hok
    · cases hok
      simp
    · split at hok
      · cases hok
        simp
      · split at hok
        · simp at hok
        · cases hok
          constructor
          · have h₁ : (parsedProblems table
                (sample (allQuestionIds pages bs)
                  (min count (allQuestionIds pages bs).length))).length
                ≤ (sample (allQuestionIds pages bs)
                  (min count (allQuestionIds pages bs).length)).dedup.length := by
              exact le_trans (List.length_filterMap_le _ _) (List.length_filterMap_le _ _)
            have h₂ := (List.dedup_sublist
              (sample (allQuestionIds pages bs)
                (min count (allQuestionIds pages bs).length))).length_le
            have h₃ := hsample (allQuestionIds pages bs)
              (min count (allQuestionIds pages bs).length)
              (Nat.min_le_right _ _)
            omega
          · exact nodup_parsed_questionIds table htable _ (List.nodup_dedup _)

/-- The two-page GSI listing exhibiting the pagination gap: every bookSource
has a first page ["Q1"] followed by a second page ["Q2"]. -/
def pagesTwoPage : String → List (List String) := fun _ => [["Q1"], ["Q2"]]

/-- C4: the claim requires the sampler to accumulate the IDs of every page of
a multi-page listing before sampling. The code issues a single query per
category and only logs a warning when a LastEvaluatedKey reports further
pages, so on a two-page listing the accumulated pool is exactly the first
page and the available ID "Q2" of the second page is never in the pool. -/
theorem C4_pagination_gap :
    allQuestionIds pagesTwoPage .readable_code = ["Q1"]
    ∧ "Q2" ∈ (pagesTwoPage "readable_code").flatten
    ∧ "Q2" ∉ allQuestionIds pagesTwoPage .readable_code := by
  refine ⟨rfl, ?_, ?_⟩
  · simp [pagesTwoPage]
  · simp [pagesTwoPage, allQuestionIds, targetBookSources, headPage]

/-- C7: in the batched fetch, selected IDs whose record is missing, malformed
or invalid are dropped without aborting the rest (a parsed record survives
exactly when its key was selected and its item parses), and the call fails
with the InternalError exactly when at least one ID was selected and no
record parsed. Stated on the non-404 path (the ID pool is non-empty). -/
theorem C7_batch_drop_and_internal_error (pages : String → List (List String))
    (table : String → Option (Option ProblemData))
    (sample : List String → Nat → List String)
    (hsample : ∀ ids n, n ≤ ids.length → (sample ids n).length = n)
    (bs : BookSource) (count : Nat)
    (hne : allQuestionIds pages bs ≠ []) :
    (get_questions_from_dynamodb pages table sample bs count = .error internalFetchError
      ↔ sample (allQuestionIds pages bs) (min count (allQuestionIds pages bs).length) ≠ []
        ∧ parsedProblems table
            (sample (allQuestionIds pages bs) (min count (allQuestionIds pages bs).length)) = [])
    ∧ (parsedProblems table
          (sample (allQuestionIds pages bs) (min count (allQuestionIds pages bs).length)) ≠ []
        → get_questions_from_dynamodb pages table sample bs count
            = .ok (parsedProblems table
                (sample (allQuestionIds pages bs) (min count (allQuestionIds pages bs).length))))
    ∧ (∀ q, q ∈ parsedProblems table
          (sample (allQuestionIds pages bs) (min count (allQuestionIds pages bs).length))
        ↔ ∃ k, k ∈ sample (allQuestionIds pages bs)
                  (min count (allQuestionIds pages bs).length)
            ∧ table k = some (some q)) := by
  have hmem : ∀ q, q ∈ parsedProblems table
      (sample (allQuestionIds pages bs) (min count (allQuestionIds pages bs).length))
      ↔ ∃ k, k ∈ sample (allQuestionIds pages bs)
                (min count (allQuestionIds pages bs).length)
          ∧ table k = some (some q) := by
    intro q
    rw [parsedProblems, mem_parsed]
    constructor
    · rintro ⟨k, hk, ht⟩
      exact ⟨k, List.mem_dedup.mp hk, ht⟩
    · rintro ⟨k, hk, ht⟩
      exact ⟨k, List.mem_dedup.mpr hk, ht⟩
  have hlen := hsample (allQuestionIds pages bs)
    (min count (allQuestionIds pages bs).length) (Nat.min_le_right _ _)
  by_cases hn : min count (allQuestionIds pages bs).length = 0
  · have hsel : sample (allQuestionIds pages bs)
        (min count (allQuestionIds pages bs).length) = [] := by
      rw [← List.length_eq_zero, hlen, hn]
    have hres : get_questions_from_dynamodb pages table sample bs count = .ok [] := by
      simp only [get_questions_from_dynamodb]
      rw [if_neg hne, if_pos hn]
    refine ⟨?_, ?_, hmem⟩
    · rw [hres, hsel]
      simp
    · rw [hsel]
      simp [parsedProblems]
  · have hselne : sample (allQuestionIds pages bs)
        (min count (allQuestionIds pages bs).length) ≠ [] := by
      intro h
      rw [h] at hlen
      exact hn hlen.symm
    by_cases hp : parsedProblems table
        (sample (allQuestionIds pages bs) (min count (allQuestionIds pages bs).length)) = []
    · have hres : get_questions_from_dynamodb pages table sample bs count
          = .error internalFetchError := by
        simp only [get_questions_from_dynamodb]
        rw [if_neg hne, if_neg hn, if_neg hselne, if_pos hp]
      refine ⟨?_, ?_, hmem⟩
      · rw [hres]
        simp [hselne, hp]
      · intro h
        exact absurd hp h
    · have hres : get_questions_from_dynamodb pages table sample bs count
          = .ok (parsedProblems table
              (sample (allQuestionIds pages bs) (min count (allQuestionIds pages bs).length))) := by
        simp only [get_questions_from_dynamodb]
        rw [if_neg hne, if_neg hn, if_neg hselne, if_neg hp]
      refine ⟨?_, fun _ => hres, hmem⟩
      rw [hres]
      simp [hp]

/-- random.sample replaced by a deterministic prefix choice for concrete
instantiations; it meets the length contract of random.sample. -/
def takeSample : List String → Nat → List String := fun ids n => ids.take n

theorem takeSample_length : ∀ ids n, n ≤ ids.length → (takeSample ids n).length = n := by
  intro ids n h
  simp [takeSample, List.length_take, Nat.min_eq_left h]

/-- A concrete question record. -/
def exProblemA : ProblemData :=
  { questionId := "Q1", bookSource := "readable_code", category := some "c1"
    question := "first question"
    options := [{ id := "A", text := "a" }, { id := "B", text := "b" }]
    correctAnswer := "A"
    explan := { explan := "expl one", referencePages := none, additionalResources := none } }

/-- A second concrete question record. -/
def exProblemB : ProblemData :=
  { questionId := "Q2", bookSource := "readable_code", category := some "c2"
    question := "second question"
    options := [{ id := "A", text := "a" }, { id := "B", text := "b" }]
    correctAnswer := "B"
    explan := { explan := "expl two", referencePages := none, additionalResources := none } }

/-- A single-page listing offering Q1 and Q2 for every bookSource. -/
def pagesOnePage : String → List (List String) := fun _ => [["Q1", "Q2"]]

/-- A concrete question table holding exProblemA under Q1 and exProblemB
under Q2. -/
def tableTwo : String → Option (Option ProblemData) := fun k =>
  if k = "Q1" then some (some exProblemA)
  else if k = "Q2" then some (some exProblemB)
  else none

theorem tableTwo_keyed : ∀ k p, tableTwo k = some (some p) → p.questionId = k := by
  intro k p hp
  by_cases h₁ : k = "Q1"
  · subst h₁
    have e : tableTwo "Q1" = some (some exProblemA) := rfl
    rw [e] at hp
    simp only [Option.some.injEq] at hp
    rw [← hp]
    rfl
  · by_cases h₂ : k = "Q2"
    · subst h₂
      have e : tableTwo "Q2" = some (some exProblemB) := rfl
      rw [e] at hp
      simp only [Option.some.injEq] at hp
      rw [← hp]
      rfl
    · simp only [tableTwo] at hp
      rw [if_neg h₁, if_neg h₂] at hp
      exact Option.noConfusion hp

/-- C3 witness: the sampling-bound theorem applied to a concrete two-question
store, where the returned list is computed outright. -/
theorem C3_witness :
    get_questions_from_dynamodb pagesOnePage tableTwo takeSample .readable_code 2
      = .ok [exProblemA, exProblemB]
    ∧ ([exProblemA, exProblemB] : List ProblemData).length ≤ 2
    ∧ (([exProblemA, exProblemB] : List ProblemData).map ProblemData.questionId).Nodup :=
  ⟨rfl,
   (C3_sampling_bound_and_distinct pagesOnePage tableTwo takeSample takeSample_length
      tableTwo_keyed .readable_code 2 [exProblemA, exProblemB] rfl).1,
   (C3_sampling_bound_and_distinct pagesOnePage tableTwo takeSample takeSample_length
      tableTwo_keyed .readable_code 2 [exProblemA, exProblemB] rfl).2⟩

/-- A question table on which every item fails validation. -/
def tableFailAll : String → Option (Option ProblemData) := fun _ => some none

/-- C7 witness: with a non-empty pool whose every selected item fails
validation, the call fails with the InternalError, per the iff of the
theorem. -/
theorem C7_witness :
    allQuestionIds pagesOnePage .readable_code ≠ []
    ∧ (get_questions_from_dynamodb pagesOnePage tableFailAll takeSample .readable_code 3
        = .error internalFetchError
      ↔ takeSample (allQuestionIds pagesOnePage .readable_code)
          (min 3 (allQuestionIds pagesOnePage .readable_code).length) ≠ []
        ∧ parsedProblems tableFailAll
            (takeSample (allQuestionIds pagesOnePage .readable_code)
              (min 3 (allQuestionIds pagesOnePage .readable_code).length)) = []) :=
  ⟨by decide,
   (C7_batch_drop_and_internal_error pagesOnePage tableFailAll takeSample takeSample_length
      .readable_code 3 (by decide)).1⟩

/-- A concrete answer-key entry. -/
def exItemC2 : SessionDataItem :=
  { questionId := "Q1", correctAnswer := "A", category := some "c1"
    question := "first question"
    options := [{ id := "A", text := "a" }, { id := "B", text := "b" }]
    explan := some "expl one" }

/-- A concrete stored session expiring at epoch second 100. -/
def exSessionC2 : SessionData :=
  { problem_data := [("Q1", exItemC2)], ttl := 100 }

/-- C2 counterexample: the claim says a load at any time greater than or
equal to expiresAtEpochSeconds returns not-found, but a session with
ttl = 100 loaded exactly at time 100 is still returned, because the source
only treats `item.ttl < current_time` as expired. -/
theorem C2_counterexample :
    exSessionC2.ttl = 100
    ∧ get_session_data (fun _ => some exSessionC2) 100 "s" = some exSessionC2 :=
  ⟨rfl, rfl⟩

/-- C2 amended: for every stored session, a load at any time up to and
including expiresAtEpochSeconds returns the session, and a load at any
strictly later time (expiresAtEpochSeconds + 1 or later) returns the
not-found outcome; in particular a load at expiresAtEpochSeconds - 1
succeeds. -/
theorem C2_ttl_boundary (store : String → Option SessionData) (session_id : String)
    (sd : SessionData) (h : store session_id = some sd) :
    (∀ t, t ≤ sd.ttl → get_session_data store t session_id = some sd)
    ∧ (∀ t, sd.ttl < t → get_session_data store t session_id = none) := by
  constructor
  · intro t ht
    have hnlt : ¬ sd.ttl < t := Nat.not_lt.mpr ht
    simp [get_session_data, h, hnlt]
  · intro t ht
    simp [get_session_data, h, ht]

/-- C2 witness: the amended boundary evaluated on the concrete session with
ttl = 100, loaded at times 99 and 101. -/
theorem C2_ttl_boundary_witness :
    (fun _ : String => some exSessionC2) "s" = some exSessionC2
    ∧ get_session_data (fun _ => some exSessionC2) 99 "s" = some exSessionC2
    ∧ get_session_data (fun _ => some exSessionC2) 101 "s" = none :=
  ⟨rfl,
   (C2_ttl_boundary (fun _ => some exSessionC2) "s" exSessionC2 rfl).1 99 (by decide),
   (C2_ttl_boundary (fun _ => some exSessionC2) "s" exSessionC2 rfl).2 101 (by decide)⟩

theorem nodup_dkeys_foldl (S : List ProblemData) (m₀ : List (String × SessionDataItem))
    (h₀ : (dkeys m₀).Nodup) :
    (dkeys (S.foldl (fun m p => dinsert p.questionId (sessionItemOfProblem p) m) m₀)).Nodup := by
  induction S generalizing m₀ with
  | nil => exact h₀
  | cons p tl ih => exact ih _ (nodup_dkeys_dinsert _ _ _ h₀)

theorem mem_dkeys_buildProblemDataMap (S : List ProblemData) (k : String) :
    k ∈ dkeys (buildProblemDataMap S) ↔ ∃ p, p ∈ S ∧ p.questionId = k := by
  have h₁ := dlookup_foldl_dinsert k S []
  rw [← buildProblemDataMap] at h₁
  have h₃ := dlookup_none_iff k (buildProblemDataMap S)
  cases hf : S.reverse.find? (fun p => p.questionId == k) with
  | some p =>
    rw [hf] at h₁
    have hne : dlookup k (buildProblemDataMap S) ≠ none := by
      rw [h₁]
      exact Option.noConfusion
    have hk : k ∈ dkeys (buildProblemDataMap S) := by
      by_contra hc
      exact hne (h₃.mpr hc)
    have hp := List.find?_some hf
    have hpm := List.mem_of_find?_eq_some hf
    simp only [hk, true_iff]
    exact ⟨p, List.mem_reverse.mp hpm, by simpa using hp⟩
  | none =>
    rw [hf] at h₁
    have hk : k ∉ dkeys (buildProblemDataMap S) := h₃.mp (by simpa [dlookup] using h₁)
    simp only [hk, false_iff]
    rintro ⟨p, hp, hpk⟩
    have hnone := List.find?_eq_none.mp hf p (List.mem_reverse.mpr hp)
    simp [hpk] at hnone

/-- C6: a session created from a non-empty question list S and loaded
immediately (at the creation time, through the same session key) returns the
stored record, whose answer-key key set is exactly the questionIds of S. -/
theorem C6_session_round_trip (store : String → Option SessionData) (session_id : String)
    (t : Nat) (S : List ProblemData) (h : S ≠ []) :
    get_session_data (putSession store session_id (store_session_data t S)) t session_id
      = some (store_session_data t S)
    ∧ ∀ k, k ∈ dkeys (store_session_data t S).problem_data
        ↔ k ∈ S.map ProblemData.questionId := by
  constructor
  · have hnlt : ¬ (t + SESSION_TTL_SECONDS < t) := by omega
    simp [get_session_data, putSession, store_session_data, hnlt]
  · intro k
    have : (store_session_data t S).problem_data = buildProblemDataMap S := rfl
    rw [this, mem_dkeys_buildProblemDataMap, List.mem_map]

/-- C6 witness: the round trip evaluated on a one-question list. -/
theorem C6_witness :
    ([exProblemA] ≠ ([] : List ProblemData))
    ∧ (get_session_data (putSession (fun _ => none) "s" (store_session_data 0 [exProblemA])) 0 "s"
        = some (store_session_data 0 [exProblemA])
      ∧ ∀ k, k ∈ dkeys (store_session_data 0 [exProblemA]).problem_data
          ↔ k ∈ [exProblemA].map ProblemData.questionId) :=
  ⟨by simp, C6_session_round_trip (fun _ => none) "s" 0 [exProblemA] (by simp)⟩

/-- C10: when a question list holds two or more records with the same
questionId, store_session_data keeps exactly one answer-key entry under that
id (the key list is duplicate-free and holds the id), and its value is built
from the LAST record in the list bearing that id; no error is raised. -/
theorem C10_duplicate_ids_last_wins (t : Nat) (problems : List ProblemData) (qid : String)
    (h : 1 < (problems.filter (fun p => p.questionId == qid)).length) :
    (dkeys (store_session_data t problems).problem_data).Nodup
    ∧ qid ∈ dkeys (store_session_data t problems).problem_data
    ∧ dlookup qid (store_session_data t problems).problem_data
        = (problems.reverse.find? (fun p => p.questionId == qid)).map sessionItemOfProblem := by
  have hpd : (store_session_data t problems).problem_data = buildProblemDataMap problems := rfl
  refine ⟨?_, ?_, ?_⟩
  · rw [hpd]
    exact nodup_dkeys_foldl problems [] (by simp [dkeys])
  · rw [hpd, mem_dkeys_buildProblemDataMap]
    have hex : ∃ p, p ∈ problems.filter (fun p => p.questionId == qid) := by
      cases hl : problems.filter (fun p => p.questionId == qid) with
      | nil =>
        rw [hl] at h
        simp at h
      | cons a tl => exact ⟨a, by simp⟩
    obtain ⟨p, hp⟩ := hex
    rw [List.mem_filter] at hp
    exact ⟨p, hp.1, by simpa using hp.2⟩
  · rw [hpd, buildProblemDataMap, dlookup_foldl_dinsert]
    cases hf : problems.reverse.find? (fun p => p.questionId == qid) with
    | some p => simp
    | none => simp [dlookup]

/-- A duplicate of exProblemA: same questionId, different correct answer and
text, used to exercise the overwrite behavior. -/
def exProblemA2 : ProblemData :=
  { questionId := "Q1", bookSource := "readable_code", category := some "c9"
    question := "first question, updated"
    options := [{ id := "A", text := "a" }, { id := "B", text := "b" }]
    correctAnswer := "B"
    explan := { explan := "expl one updated", referencePages := none
                additionalResources := none } }

/-- C10 witness: a two-element list carrying Q1 twice, evaluated through the
duplicate-overwrite theorem. -/
theorem C10_witness :
    1 < (([exProblemA, exProblemA2] : List ProblemData).filter
          (fun p => p.questionId == "Q1")).length
    ∧ ((dkeys (store_session_data 0 [exProblemA, exProblemA2]).problem_data).Nodup
      ∧ "Q1" ∈ dkeys (store_session_data 0 [exProblemA, exProblemA2]).problem_data
      ∧ dlookup "Q1" (store_session_data 0 [exProblemA, exProblemA2]).problem_data
          = (([exProblemA, exProblemA2] : List ProblemData).reverse.find?
              (fun p => p.questionId == "Q1")).map sessionItemOfProblem) :=
  ⟨by decide, C10_duplicate_ids_last_wins 0 [exProblemA, exProblemA2] "Q1" (by decide)⟩

theorem shuffleRecord_frame (shuf : List QOption → List QOption)
    (hshuf : ∀ l, (shuf l).Perm l) (q q₂ : ProblemData)
    (hq : q₂ = if q.options = [] then q else { q with options := shuf q.options }) :
    q₂.options.Perm q.options
    ∧ q₂.questionId = q.questionId ∧ q₂.bookSource = q.bookSource
    ∧ q₂.category = q.category ∧ q₂.question = q.question
    ∧ q₂.correctAnswer = q.correctAnswer ∧ q₂.explan = q.explan
    ∧ (q.options.length ≤ 1 → q₂ = q)
    ∧ (q.correctAnswer ∈ q.options.map QOption.id
        → q₂.correctAnswer ∈ q₂.options.map QOption.id) := by
  subst hq
  by_cases h : q.options = []
  · simp [h]
  · rw [if_neg h]
    refine ⟨hshuf q.options, rfl, rfl, rfl, rfl, rfl, rfl, ?_, ?_⟩
    · intro hlen
      cases hop : q.options with
      | nil => exact absurd hop h
      | cons x tl =>
        cases tl with
        | nil =>
          have hsingle : shuf [x] = [x] := List.perm_singleton.mp (hshuf [x])
          rw [hsingle, ← hop]
        | cons y tl₂ =>
          rw [hop] at hlen
          simp at hlen
    · intro hmem
      have hperm : ((shuf q.options).map QOption.id).Perm (q.options.map QOption.id) :=
        (hshuf q.options).map QOption.id
      exact hperm.mem_iff.mpr hmem

/-- C8: shuffle_options only permutes each record's options: lengths agree,
the options multiset of each record is preserved, every other field is
unchanged, a record with zero or one option is returned unchanged, and a
correctAnswer naming a member of the option-id set still names one. -/
theorem C8_shuffle_frame (shuf : List QOption → List QOption)
    (hshuf : ∀ l, (shuf l).Perm l) (questions : List ProblemData) :
    (shuffle_options shuf questions).length = questions.length
    ∧ ∀ i (hi : i < questions.length) (hi₂ : i < (shuffle_options shuf questions).length),
        (((shuffle_options shuf questions).get ⟨i, hi₂⟩).options).Perm
            ((questions.get ⟨i, hi⟩).options)
        ∧ ((shuffle_options shuf questions).get ⟨i, hi₂⟩).questionId
            = (questions.get ⟨i, hi⟩).questionId
        ∧ ((shuffle_options shuf questions).get ⟨i, hi₂⟩).bookSource
            = (questions.get ⟨i, hi⟩).bookSource
        ∧ ((shuffle_options shuf questions).get ⟨i, hi₂⟩).category
            = (questions.get ⟨i, hi⟩).category
        ∧ ((shuffle_options shuf questions).get ⟨i, hi₂⟩).question
            = (questions.get ⟨i, hi⟩).question
        ∧ ((shuffle_options shuf questions).get ⟨i, hi₂⟩).correctAnswer
            = (questions.get ⟨i, hi⟩).correctAnswer
        ∧ ((shuffle_options shuf questions).get ⟨i, hi₂⟩).explan
            = (questions.get ⟨i, hi⟩).explan
        ∧ ((questions.get ⟨i, hi⟩).options.length ≤ 1
            → (shuffle_options shuf questions).get ⟨i, hi₂⟩ = questions.get ⟨i, hi⟩)
        ∧ ((questions.get ⟨i, hi⟩).correctAnswer
              ∈ (questions.get ⟨i, hi⟩).options.map QOption.id
            → ((shuffle_options shuf questions).get ⟨i, hi₂⟩).correctAnswer
                ∈ ((shuffle_options shuf questions).get ⟨i, hi₂⟩).options.map QOption.id) := by
  constructor
  · simp [shuffle_options]
  · intro i hi hi₂
    have hget : (shuffle_options shuf questions).get ⟨i, hi₂⟩
        = (if (questions.get ⟨i, hi⟩).options = [] then questions.get ⟨i, hi⟩
           else { questions.get ⟨i, hi⟩ with options := shuf (questions.get ⟨i, hi⟩).options }) := by
      simp [shuffle_options]
    exact shuffleRecord_frame shuf hshuf (questions.get ⟨i, hi⟩)
      ((shuffle_options shuf questions).get ⟨i, hi₂⟩) hget

/-- C8 witness: the frame theorem evaluated with the identity permutation on
a one-record list. -/
theorem C8_witness :
    (∀ l : List QOption, ((fun l => l) l).Perm l)
    ∧ (shuffle_options (fun l => l) [exProblemA]).length = [exProblemA].length
    ∧ (((shuffle_options (fun l => l) [exProblemA]).get ⟨0, by decide⟩).options).Perm
        (([exProblemA].get ⟨0, by decide⟩).options) :=
  ⟨fun l => List.Perm.refl l,
   (C8_shuffle_frame (fun l => l) (fun l => List.Perm.refl l) [exProblemA]).1,
   ((C8_shuffle_frame (fun l => l) (fun l => List.Perm.refl l) [exProblemA]).2 0
      (by decide) (by decide)).1⟩

theorem validate_answers_eq_filterMap (answers : List Answer) (sd : SessionData) :
    validate_answers answers sd = answers.filterMap (gradeAnswer sd.problem_data) := by
  induction answers with
  | nil => rfl
  | cons a tl ih =>
    cases hl : dlookup a.questionId sd.problem_data with
    | none => simp [validate_answers, List.filterMap_cons, gradeAnswer, hl, ih]
    | some info => simp [validate_answers, List.filterMap_cons, gradeAnswer, hl, ih]

/-- C5: the grader emits, in the relative order of the input answers, exactly
one Result per input answer whose questionId is a key of the session answer
key (each occurrence graded on its own, duplicates included) and none for the
rest, so the output is never longer than the input. -/
theorem C5_grader_per_answer (answers : List Answer) (sd : SessionData) :
    validate_answers answers sd = answers.filterMap (gradeAnswer sd.problem_data)
    ∧ (∀ a : Answer, (gradeAnswer sd.problem_data a).isSome
        ↔ (dlookup a.questionId sd.problem_data).isSome)
    ∧ (validate_answers answers sd).length ≤ answers.length := by
  refine ⟨validate_answers_eq_filterMap answers sd, ?_, ?_⟩
  · intro a
    cases hl : dlookup a.questionId sd.problem_data <;> simp [gradeAnswer, hl]
  · rw [validate_answers_eq_filterMap]
    exact List.length_filterMap_le _ _

/-- C9: every emitted Result is internally consistent: isCorrect holds iff
its own userAnswer is non-null and equals its own correctAnswer, and the
display fields are copied verbatim from the answer-key entry stored under its
questionId. -/
theorem C9_result_consistency (answers : List Answer) (sd : SessionData) (r : Result)
    (hr : r ∈ validate_answers answers sd) :
    (r.isCorrect = true ↔ (r.userAnswer ≠ none ∧ r.userAnswer = some r.correctAnswer))
    ∧ ∃ entry, dlookup r.questionId sd.problem_data = some entry
        ∧ r.correctAnswer = entry.correctAnswer ∧ r.category = entry.category
        ∧ r.question = entry.question ∧ r.options = entry.options
        ∧ r.explan = entry.explan := by
  induction answers with
  | nil => simp [validate_answers] at hr
  | cons a tl ih =>
    simp only [validate_answers] at hr
    cases hl : dlookup a.questionId sd.problem_data with
    | none =>
      rw [hl] at hr
      exact ih hr
    | some info =>
      rw [hl] at hr
      rcases List.mem_cons.mp hr with h₁ | h₂
      · subst h₁
        constructor
        · cases ha : a.answer with
          | none => simp [isCorrectOf, ha]
          | some s => simp [isCorrectOf, ha]
        · exact ⟨info, hl, rfl, rfl, rfl, rfl, rfl⟩
      · exact ih h₂

/-- A concrete answer-key entry for grading instances. -/
def exItemC9 : SessionDataItem :=
  { questionId := "Q1", correctAnswer := "A", category := some "c1"
    question := "first question"
    options := [{ id := "A", text := "a" }, { id := "B", text := "b" }]
    explan := some "expl one" }

/-- A concrete session for grading instances. -/
def exSessionC9 : SessionData :=
  { problem_data := [("Q1", exItemC9)], ttl := 100 }

/-- The Result the grader emits for Q1 answered with A against exSessionC9. -/
def exResultC9 : Result :=
  { questionId := "Q1", category := some "c1", isCorrect := true
    userAnswer := some "A", correctAnswer := "A", question := "first question"
    options := [{ id := "A", text := "a" }, { id := "B", text := "b" }]
    explan := some "expl one" }

/-- C9 witness: the consistency theorem on the concrete graded result. -/
theorem C9_witness :
    exResultC9 ∈ validate_answers [{ questionId := "Q1", answer := some "A" }] exSessionC9
    ∧ (exResultC9.isCorrect = true
        ↔ (exResultC9.userAnswer ≠ none
            ∧ exResultC9.userAnswer = some exResultC9.correctAnswer)) :=
  ⟨by decide,
   (C9_result_consistency [{ questionId := "Q1", answer := some "A" }] exSessionC9 exResultC9
      (by decide)).1⟩

/-- A concrete answer-key entry for the null-answer claim. -/
def exItemC1 : SessionDataItem :=
  { questionId := "Q1", correctAnswer := "A", category := some "c1"
    question := "first question"
    options := [{ id := "A", text := "a" }, { id := "B", text := "b" }]
    explan := some "expl one" }

/-- A concrete stored session whose answer key holds Q1, used for the
null-answer claim. -/
def exSessionC1 : SessionData :=
  { problem_data := [("Q1", exItemC1)], ttl := 100 }

/-- The concrete request carrying a null answer for Q1. -/
def exReqC1 : AnswerRequest :=
  { sessionId := "s", answers := [{ questionId := "Q1", answer := none }] }

/-- C1 counterexample: the claim says a null chosenOptionId whose questionId
is in the answer key is accepted and graded incorrect, never an error; but
models.Answer declares `answer: str`, so the request body with answer null
fails request validation (a 422), even though Q1 is a key of the session
answer key. -/
theorem C1_counterexample :
    (dlookup "Q1" exSessionC1.problem_data).isSome = true
    ∧ submit_answers (fun _ => some exSessionC1) 0 exReqC1 = .validationError :=
  ⟨rfl, rfl⟩

/-- C1 amended: a submitted answer with a null chosenOptionId is rejected by
the request-model validation (models.Answer requires `answer: str`), so
SubmitAnswers returns the validation error; a null chosenOptionId never
reaches the grading loop. -/
theorem C1_null_answer_rejected (store : String → Option SessionData) (current_time : Nat)
    (req : AnswerRequest) (h : ∃ a, a ∈ req.answers ∧ a.answer = none) :
    submit_answers store current_time req = .validationError := by
  obtain ⟨a, ha, hnone⟩ := h
  have hv : answerRequestValid req = false := by
    cases hva : answerRequestValid req with
    | false => rfl
    | true =>
      rw [answerRequestValid, List.all_eq_true] at hva
      have hsome := hva a ha
      rw [answerValid, hnone] at hsome
      exact absurd hsome (by simp)
  simp [submit_answers, hv]

/-- C1 witness: the amended theorem evaluated on the concrete null-answer
request against the concrete session. -/
theorem C1_null_answer_rejected_witness :
    (∃ a, a ∈ exReqC1.answers ∧ a.answer = none)
    ∧ submit_answers (fun _ => some exSessionC1) 0 exReqC1 = .validationError :=
  ⟨⟨{ questionId := "Q1", answer := none }, by simp [exReqC1], rfl⟩,
   C1_null_answer_rejected (fun _ => some exSessionC1) 0 exReqC1
      ⟨{ questionId := "Q1", answer := none }, by simp [exReqC1], rfl⟩⟩
